import Mathlib

/-!
Shallow embedding of the desired-state reconciliation modules of the
`azure_preview_modules` repository (files `library/azure_rm_appgw.py` and
`library/azure_rm_appserviceplan.py`), together with theorems settling the
spec claims about them.

Conventions of the embedding:
* Python values flowing through the translation layer are modelled by `PVal`
  (scalars), `PDict` (a Python dict as an association list in insertion
  order) and `PList` (a Python list whose elements are dicts or scalars).
* A call into the provider SDK is modelled by a `GetOutcome` value supplied
  as an input: the provider either returns a deserialized object, raises a
  `CloudError` of some kind, or raises a non-`CloudError` exception.
* `self.fail(...)` and uncaught Python exceptions both abort the run; they
  are modelled by `Except`/`PyError` values.
* The argument-spec validation layer (Ansible) guarantees the declared
  types of the module parameters (`str`/`bool`/`dict`/`list`), so inputs of
  the embedded functions carry those types.
-/

/-- Requested state of the resource: the `state` module parameter, whose
documented choices are `present` and `absent`. -/
inductive RState where
  | present
  | absent
deriving DecidableEq, Repr

/-- Kinds of provider `CloudError`. The source only ever branches on whether
a `CloudError` was raised at all, never on its kind, so the kind is carried
solely to let theorems speak about not-found versus other provider failures. -/
inductive CloudErrKind where
  | notFound
  | permissionDenied
  | transientNetwork
  | malformedResponse
deriving DecidableEq, Repr

/-- Outcome of one call into the provider SDK for an operation returning a
deserializable object of type `σ`. -/
inductive GetOutcome (σ : Type) where
  | ok : σ → GetOutcome σ
  | cloudError : CloudErrKind → GetOutcome σ
  | otherError : GetOutcome σ
deriving DecidableEq, Repr

/-- Ways a module run aborts: `failMsg` models `self.fail(msg)`,
`attributeError`/`typeError`/`keyError` model the corresponding uncaught
Python exceptions, `providerError` models a non-`CloudError` exception
propagating out of a provider call. -/
inductive PyError where
  | failMsg : String → PyError
  | attributeError : String → PyError
  | typeError : String → PyError
  | keyError : String → PyError
  | providerError : PyError
deriving DecidableEq, Repr

/-- Executor operations observable from outside the engine. -/
inductive ExecCall where
  | createOrUpdateCall
  | deleteCall
deriving DecidableEq, Repr

/-- Result of a post-delete existence-polling loop
(`while self.get_...(): time.sleep(20)`), driven by the finite list of
provider outcomes for the successive `get` calls. `finished sl` means the
loop exited because a fetch was falsy, having slept the durations `sl`;
`failed` means a fetch raised; `hung` means the supplied outcome list was
exhausted with every fetch still truthy, i.e. the unbounded loop never
terminates on any extension of the trace by truthy fetches. -/
inductive PollRes where
  | finished : List Nat → PollRes
  | failed : PyError → List Nat → PollRes
  | hung : List Nat → PollRes
deriving DecidableEq, Repr

/-- The poll loop `while get(): time.sleep(20)`, generic over the module's
fetch function `g` and the Python truthiness `tru` of its result. The fetch
runs first; each truthy fetch is followed by a sleep of 20 time units. -/
def deletePoll {σ : Type} (g : GetOutcome σ → Except PyError (Option σ))
    (tru : Option σ → Bool) : List (GetOutcome σ) → PollRes
  | [] => .hung []
  | o :: rest =>
    match g o with
    | .error e => .failed e []
    | .ok ob =>
      if tru ob then
        match deletePoll g tru rest with
        | .finished sl => .finished (20 :: sl)
        | .failed e sl => .failed e (20 :: sl)
        | .hung sl => .hung (20 :: sl)
      else .finished []

/-! ### The app service plan module (`azure_rm_appserviceplan.py`) -/

/-- Python `str.upper()` on the ASCII tokens the sku functions handle,
character by character. -/
def pyUpper (s : String) : String := String.mk (s.data.map Char.toUpper)

/-- Source `_normalize_sku`: upper-cases the sku and folds the tier aliases
`FREE` to `F1` and `SHARED` to `D1`; `None` passes through. -/
def _normalize_sku (sku : Option String) : Option String :=
  match sku with
  | none => none
  | some s =>
    let u := pyUpper s
    if u = "FREE" then some "F1"
    else if u = "SHARED" then some "D1"
    else some u

/-- Source `get_sku_name`: maps a normalized sku size to its pricing-tier
name, returning `None` for unrecognized sizes. -/
def get_sku_name (tier : String) : Option String :=
  let t := pyUpper tier
  if t = "F1" ∨ t = "FREE" then some "FREE"
  else if t = "D1" ∨ t = "SHARED" then some "SHARED"
  else if t ∈ ["B1", "B2", "B3", "BASIC"] then some "BASIC"
  else if t ∈ ["S1", "S2", "S3"] then some "STANDARD"
  else if t ∈ ["P1", "P2", "P3"] then some "PREMIUM"
  else if t ∈ ["P1V2", "P2V2", "P3V2"] then some "PREMIUMV2"
  else none

/-- Tag maps, in insertion order. -/
abbrev Tags := List (String × String)

/-- Python dict assignment `t[k] = v` for a tag map: replaces the value of an
existing key in place, otherwise appends the new binding. -/
def tagSet (t : Tags) (k v : String) : Tags :=
  if t.any (fun p => p.1 == k) then
    t.map (fun p => if p.1 == k then (p.1, v) else p)
  else t ++ [(k, v)]

/-- Modelled from the spec: `self.update_tags` comes from the Ansible base
class `AzureRMModuleBase` (`azure_rm_common`), which is not part of this
source tree. Spec section 4.4: the engine "merges desired tags into existing
tags; if the merged result differs from the existing tags, treat as
requiring Update". A caller that supplied no tags leaves the existing tags
unchanged. Returns the update flag and the merged map. -/
def update_tags (existing : Tags) (desired : Option Tags) : Bool × Tags :=
  match desired with
  | none => (false, existing)
  | some ds =>
    let merged := ds.foldl (fun acc kv => tagSet acc kv.1 kv.2) existing
    (decide (merged ≠ existing), merged)

/-- The dictionary produced by `response.as_dict()` for a fetched app service
plan: the `tags` key (absent when `none`), plus the remaining keys, whose
values the module only ever reads through *attribute* access (see
`planDictAttr`), rendered as opaque strings. -/
structure PlanStateDict where
  tags : Option Tags
  rest : List (String × String)
deriving DecidableEq, Repr

/-- Python truthiness of the fetch result: `False` (absent) is falsy, a dict
is truthy exactly when it is non-empty (some key present). -/
def planTruthy : Option PlanStateDict → Bool
  | none => false
  | some ⟨none, []⟩ => false
  | some _ => true

/-- Attribute access `old_response.<name>` where `old_response` is a plain
Python `dict` (the value of `response.as_dict()`). A `dict` instance has no
attribute `sku`, `number_of_workers`, `admin_site_name` or `reserved`, so
this raises `AttributeError` regardless of the dictionary's contents. -/
def planDictAttr (_d : PlanStateDict) (name : String) : Except PyError String :=
  .error (.attributeError name)

/-- Source `get_plan`: one provider `get`; any `CloudError` is caught and
turned into the return value `False` (absent, modelled `none`); a
non-`CloudError` exception propagates. -/
def get_plan (o : GetOutcome PlanStateDict) : Except PyError (Option PlanStateDict) :=
  match o with
  | .ok d => .ok (some d)
  | .cloudError _ => .ok none
  | .otherError => .error .providerError

/-- Source `create_or_update_plan`: submits create-or-update, unwraps the
poller into the final state; a `CloudError` becomes `self.fail`, any other
exception propagates. -/
def create_or_update_plan (o : GetOutcome PlanStateDict) : Except PyError PlanStateDict :=
  match o with
  | .ok d => .ok d
  | .cloudError _ => .error (.failMsg "Failed to create app service plan")
  | .otherError => .error .providerError

/-- The module attributes after the `setattr` loop of `exec_module`: `sku`,
`number_of_workers` and `admin_site_name` stay `None` unless a truthy value
was supplied; `is_linux` is the boolean parameter value (default `false`;
the attribute is only set when it is `true`, and `None` and `False` are
equally falsy in every use site, so the raw boolean suffices); `tags` is the
caller's tag map or `None`; `check_mode` is the Ansible check-mode flag. -/
structure PlanInput where
  sku : Option String
  number_of_workers : Option String
  admin_site_name : Option String
  is_linux : Bool
  state : RState
  tags : Option Tags
  check_mode : Bool
deriving DecidableEq, Repr

/-- Provider behavior for one app service plan run: the outcome of the
initial `get`, of `create_or_update`, of the delete call, and of the `get`
calls issued by the post-delete poll. -/
structure PlanProvider where
  getOutcome : GetOutcome PlanStateDict
  createOutcome : GetOutcome PlanStateDict
  deleteOutcome : Except CloudErrKind Unit
  pollOutcomes : List (GetOutcome PlanStateDict)

/-- Result of the decision/diff phase of the plan module's `exec_module`
(lines between the fetch and the first executor call): either the run aborts,
or it proceeds with the computed `to_be_updated` flag and the (tag-merged)
`old_response`. -/
inductive PlanDiffRes where
  | fail : PyError → PlanDiffRes
  | proceed : Bool → Option PlanStateDict → PlanDiffRes
deriving DecidableEq, Repr

/-- The branch taken when `not old_response` (plan not observed): under
`state == 'present'` the plan is to be created, failing first when no sku was
supplied; under `state == 'absent'` nothing is flagged. -/
def planDiffAbsent (pin : PlanInput) (old : Option PlanStateDict) : PlanDiffRes :=
  if pin.state = RState.present then
    if pin.sku = none then .fail (.failMsg "Please specify sku in plan when creation")
    else .proceed true old
  else .proceed false old

/-- The branch taken when the plan exists and `state == 'present'`: merge
tags into `old_response['tags']`, then compare sku, worker count, admin site
name and the `is_linux`/`reserved` flag. Each of those comparisons reads
`old_response.<attr>` — attribute access on a plain dict — so the first one
whose guard is truthy raises `AttributeError` (see `planDictAttr`); the
guards short-circuit, so with nothing supplied no attribute is touched. -/
def planDiffUpdate (pin : PlanInput) (d : PlanStateDict) : PlanDiffRes :=
  let ut := update_tags (d.tags.getD []) pin.tags
  let d1 : PlanStateDict := { d with tags := some ut.2 }
  if pin.sku.isSome then
    match planDictAttr d1 "sku" with
    | .error e => .fail e
    | .ok _ => .proceed ut.1 (some d1)
  else if pin.number_of_workers.isSome then
    match planDictAttr d1 "number_of_workers" with
    | .error e => .fail e
    | .ok _ => .proceed ut.1 (some d1)
  else if pin.admin_site_name.isSome then
    match planDictAttr d1 "admin_site_name" with
    | .error e => .fail e
    | .ok _ => .proceed ut.1 (some d1)
  else if pin.is_linux then
    match planDictAttr d1 "reserved" with
    | .error e => .fail e
    | .ok _ => .proceed ut.1 (some d1)
  else .proceed ut.1 (some d1)

/-- Decision/diff phase of the plan module's `exec_module`, dispatching on
Python truthiness of `old_response` and on the requested state. -/
def planDiff (pin : PlanInput) (old : Option PlanStateDict) : PlanDiffRes :=
  if planTruthy old = false then planDiffAbsent pin old
  else
    match old with
    | none => planDiffAbsent pin old
    | some d =>
      if pin.state = RState.present then planDiffUpdate pin d
      else .proceed false (some d)

/-- Modelled from the spec: `exec_module` calls `self.delete_webapp()`, which
is defined nowhere in this source file. Spec section 4.5, Delete: "submit a
delete call; on success, re-fetch existence in a bounded polling loop (fixed
interval, e.g. 20 time units between checks) until the fetch reports
Absent"; a provider error during delete is fatal for the run. -/
def delete_webapp (prov : PlanProvider) : PollRes :=
  match prov.deleteOutcome with
  | .error _ => .failed (.failMsg "Error deleting the app service plan") []
  | .ok _ => deletePoll get_plan planTruthy prov.pollOutcomes

/-- Caller-visible result dictionary of a plan run: the `changed` flag and
`ansible_facts.azure_appserviceplan`. -/
structure PlanResults where
  changed : Bool
  facts : Option PlanStateDict
deriving DecidableEq, Repr

/-- How a plan run ends: normal return of `self.results`, abort with a
Python error / `self.fail`, or divergence inside the unbounded delete poll. -/
inductive PlanOutcome where
  | done : PlanResults → PlanOutcome
  | err : PyError → PlanOutcome
  | divergent : PlanOutcome
deriving DecidableEq, Repr

/-- One full plan run: the executor calls issued, the sleeps performed by
the post-delete poll, and the outcome. -/
structure PlanRun where
  calls : List ExecCall
  sleeps : List Nat
  outcome : PlanOutcome
deriving DecidableEq, Repr

/-- Tail of `exec_module` from the `if self.state == 'absent' and
old_response:` test onward: the delete step (setting `changed` to true,
honoring check mode, then the delete call and its existence poll), else the
final `return self.results`. -/
def planFinish (pin : PlanInput) (prov : PlanProvider) (old1 : Option PlanStateDict)
    (changed : Bool) (facts : Option PlanStateDict) (calls : List ExecCall) : PlanRun :=
  if pin.state = RState.absent ∧ planTruthy old1 = true then
    if pin.check_mode then ⟨calls, [], .done ⟨true, facts⟩⟩
    else
      match delete_webapp prov with
      | .finished sl => ⟨calls ++ [ExecCall.deleteCall], sl, .done ⟨true, facts⟩⟩
      | .failed e sl => ⟨calls ++ [ExecCall.deleteCall], sl, .err e⟩
      | .hung sl => ⟨calls ++ [ExecCall.deleteCall], sl, .divergent⟩
  else ⟨calls, [], .done ⟨changed, facts⟩⟩

/-- Source `exec_module` of `AzureRMAppServicePlans` (the fetch it performs
is the module's own `get_plan`): fetch, decide, publish `old_response` as
facts when truthy, run the create-or-update step when `to_be_updated`
(honoring check mode), then the delete step when absent was requested
against an existing plan. -/
def planExec (pin : PlanInput) (prov : PlanProvider) : PlanRun :=
  match get_plan prov.getOutcome with
  | .error e => ⟨[], [], .err e⟩
  | .ok old =>
    match planDiff pin old with
    | .fail e => ⟨[], [], .err e⟩
    | .proceed tbu old1 =>
      let facts0 := if planTruthy old1 then old1 else none
      if tbu then
        if pin.check_mode then ⟨[], [], .done ⟨true, facts0⟩⟩
        else
          match create_or_update_plan prov.createOutcome with
          | .error e => ⟨[ExecCall.createOrUpdateCall], [], .err e⟩
          | .ok resp =>
            planFinish pin prov old1 true (some resp) [ExecCall.createOrUpdateCall]
      else planFinish pin prov old1 false facts0 []

/-! ### The application gateway module (`azure_rm_appgw.py`): field translation -/

/-- A scalar Python value occurring in a module parameter. -/
inductive PVal where
  | s : String → PVal
  | i : Int → PVal
  | b : Bool → PVal
deriving DecidableEq, Repr

/-- A Python dict parameter, as an association list in insertion order. -/
abbrev PDict := List (String × PVal)

/-- An element of a Python list parameter: a child dict or a scalar. -/
inductive PElem where
  | pd : PDict → PElem
  | pv : PVal → PElem
deriving DecidableEq, Repr

/-- A Python list parameter. -/
abbrev PList := List PElem

/-- Python dict read `d[k]` as an option (`none` when `k not in d`). -/
def pdGet (d : PDict) (k : String) : Option PVal :=
  (d.find? (fun p => p.1 == k)).map (fun p => p.2)

/-- Python dict assignment `d[k] = v`; in the translation it is only ever
executed for a key that is already present, which it overwrites in place. -/
def pdSet (d : PDict) (k : String) (v : PVal) : PDict :=
  if d.any (fun p => p.1 == k) then
    d.map (fun p => if p.1 == k then (p.1, v) else p)
  else d ++ [(k, v)]

/-- One `if '<k>' in ev: if ev[k] == u1: ev[k] = p1 elif ...` chain of the
source, for a dict-typed parameter: when key `k` holds a string with an
entry in the table, overwrite it with the provider-native token; any other
value (missing key, unmapped string, non-string) passes through verbatim. -/
def dictEnum (ev : PDict) (k : String) (tbl : List (String × String)) : PDict :=
  match pdGet ev k with
  | some (PVal.s v) =>
    match tbl.lookup v with
    | some w => pdSet ev k (PVal.s w)
    | none => ev
  | _ => ev

/-- The same `if '<k>' in ev:` chain when `ev` is a *list* parameter: the
Python `in` is list membership, true only when some element equals the
string `k` itself; in that case the chain reads `ev[k]`, which raises
`TypeError` (list indices must be integers). A list of child dicts never
contains the bare string `k`, so it passes through with no element
rewritten. -/
def listEnum (ev : PList) (k : String) : Except PyError PList :=
  if PElem.pv (PVal.s k) ∈ ev then .error (.typeError "list indices must be integers")
  else .ok ev

/-- Applies `listEnum` for each key the source checks on that parameter, in
source order, to an optional list parameter. -/
def optListEnum (o : Option PList) (ks : List String) : Except PyError (Option PList) :=
  match o with
  | none => .ok none
  | some ev => (ks.foldlM (fun acc k1 => listEnum acc k1) ev).map some

/-- Enum table of `sku.name` (source lines 1248 to 1257). -/
def skuNameTable : List (String × String) :=
  [("standard_small", "Standard_Small"), ("standard_medium", "Standard_Medium"),
   ("standard_large", "Standard_Large"), ("waf_medium", "WAF_Medium"),
   ("waf_large", "WAF_Large")]

/-- Enum table of `sku.tier`. -/
def skuTierTable : List (String × String) := [("standard", "Standard"), ("waf", "WAF")]

/-- Enum table of `ssl_policy.policy_type`. -/
def sslPolicyTypeTable : List (String × String) :=
  [("predefined", "Predefined"), ("custom", "Custom")]

/-- Enum table of `ssl_policy.policy_name`. -/
def sslPolicyNameTable : List (String × String) :=
  [("app_gw_ssl_policy20150501", "AppGwSslPolicy20150501"),
   ("app_gw_ssl_policy20170401", "AppGwSslPolicy20170401"),
   ("app_gw_ssl_policy20170401_s", "AppGwSslPolicy20170401S")]

/-- Enum table of `ssl_policy.min_protocol_version`. -/
def minProtocolTable : List (String × String) :=
  [("tl_sv1_0", "TLSv1_0"), ("tl_sv1_1", "TLSv1_1"), ("tl_sv1_2", "TLSv1_2")]

/-- Enum table of `frontend_ip_configurations.private_ip_allocation_method`. -/
def privateIpAllocTable : List (String × String) :=
  [("static", "Static"), ("dynamic", "Dynamic")]

/-- Enum table of the `protocol` fields of probes, backend http settings and
http listeners. -/
def protocolTable : List (String × String) := [("http", "Http"), ("https", "Https")]

/-- Enum table of `backend_http_settings_collection.cookie_based_affinity`. -/
def cookieAffinityTable : List (String × String) :=
  [("enabled", "Enabled"), ("disabled", "Disabled")]

/-- Enum table of `request_routing_rules.rule_type`. -/
def ruleTypeTable : List (String × String) :=
  [("basic", "Basic"), ("path_based_routing", "PathBasedRouting")]

/-- Enum table of `redirect_configurations.redirect_type`. -/
def redirectTypeTable : List (String × String) :=
  [("permanent", "Permanent"), ("found", "Found"), ("see_other", "SeeOther"),
   ("temporary", "Temporary")]

/-- Enum table of `web_application_firewall_configuration.firewall_mode`. -/
def firewallModeTable : List (String × String) :=
  [("detection", "Detection"), ("prevention", "Prevention")]

/-- All enum tables written out in the gateway module's translation chains. -/
def gwEnumTables : List (List (String × String)) :=
  [skuNameTable, skuTierTable, sslPolicyTypeTable, sslPolicyNameTable,
   minProtocolTable, privateIpAllocTable, protocolTable, cookieAffinityTable,
   ruleTypeTable, redirectTypeTable, firewallModeTable]

/-- Forward translation through a table: a mapped token is rewritten, an
unmapped token passes through verbatim. -/
def applyMap (tbl : List (String × String)) (v : String) : String :=
  (tbl.lookup v).getD v

/-- Reverse lookup of a provider-native token in a table. -/
def revLookup (tbl : List (String × String)) (w : String) : Option String :=
  (tbl.find? (fun p => p.2 == w)).map (fun p => p.1)

/-- The gateway module's keyword arguments after argument-spec validation
(`None` when not supplied), excluding `resource_group`, `name` and `state`,
which are plain attributes on the module object. The declared Ansible types
are: `str` for the scalars, `dict` for `sku`, `ssl_policy` and
`web_application_firewall_configuration`, `list` for the rest. -/
structure GwKwargs where
  id : Option String
  location : Option String
  sku : Option PDict
  ssl_policy : Option PDict
  gateway_ip_configurations : Option PList
  authentication_certificates : Option PList
  ssl_certificates : Option PList
  frontend_ip_configurations : Option PList
  frontend_ports : Option PList
  probes : Option PList
  backend_address_pools : Option PList
  backend_http_settings_collection : Option PList
  http_listeners : Option PList
  url_path_maps : Option PList
  request_routing_rules : Option PList
  redirect_configurations : Option PList
  web_application_firewall_configuration : Option PDict
  enable_http2 : Option String
  resource_guid : Option String
  provisioning_state : Option String
  etag : Option String
deriving DecidableEq, Repr

/-- The `self.parameters` dict built by the translation loop: it holds
exactly the translated values of the non-`None` keyword arguments, so it has
the same shape as the keyword arguments themselves. -/
abbrev GwParams := GwKwargs

/-- The translation loop of the gateway module's `exec_module` (the `elif`
chain over `module_arg_spec` keys, in source order). Each dict-typed enum
parameter is rewritten *in place* (`ev = kwargs[key]` aliases the caller's
dict, and `ev[...] = ...` mutates it) and the same object is stored into
`self.parameters`; list-typed parameters are stored unrewritten unless the
list literally contains the checked key as a string element, in which case
the run aborts with `TypeError`. Returns the caller's keyword arguments as
they stand after the loop, together with `self.parameters`. -/
def translateGw (k : GwKwargs) : Except PyError (GwKwargs × GwParams) := do
  let sku1 := k.sku.map (fun ev => dictEnum (dictEnum ev "name" skuNameTable) "tier" skuTierTable)
  let ssl1 := k.ssl_policy.map (fun ev =>
    dictEnum (dictEnum (dictEnum ev "policy_type" sslPolicyTypeTable)
      "policy_name" sslPolicyNameTable) "min_protocol_version" minProtocolTable)
  let fic1 ← optListEnum k.frontend_ip_configurations ["private_ip_allocation_method"]
  let probes1 ← optListEnum k.probes ["protocol"]
  let bhsc1 ← optListEnum k.backend_http_settings_collection ["protocol", "cookie_based_affinity"]
  let hl1 ← optListEnum k.http_listeners ["protocol"]
  let rrr1 ← optListEnum k.request_routing_rules ["rule_type"]
  let rc1 ← optListEnum k.redirect_configurations ["redirect_type"]
  let waf1 := k.web_application_firewall_configuration.map (fun ev =>
    dictEnum ev "firewall_mode" firewallModeTable)
  let kMut : GwKwargs :=
    { k with sku := sku1, ssl_policy := ssl1,
             web_application_firewall_configuration := waf1 }
  let params : GwParams :=
    { id := k.id, location := k.location, sku := sku1, ssl_policy := ssl1,
      gateway_ip_configurations := k.gateway_ip_configurations,
      authentication_certificates := k.authentication_certificates,
      ssl_certificates := k.ssl_certificates,
      frontend_ip_configurations := fic1,
      frontend_ports := k.frontend_ports,
      probes := probes1,
      backend_address_pools := k.backend_address_pools,
      backend_http_settings_collection := bhsc1,
      http_listeners := hl1,
      url_path_maps := k.url_path_maps,
      request_routing_rules := rrr1,
      redirect_configurations := rc1,
      web_application_firewall_configuration := waf1,
      enable_http2 := k.enable_http2,
      resource_guid := k.resource_guid,
      provisioning_state := k.provisioning_state,
      etag := k.etag }
  return (kMut, params)

/-! ### The application gateway module: fetch, decision, executor -/

/-- Source `class Actions`: the four decision variants. -/
inductive Actions where
  | NoAction
  | Create
  | Update
  | Delete
deriving DecidableEq, Repr

/-- The dictionary produced by `response.as_dict()` for a fetched gateway,
rendered as an association list of its keys (the module only ever compares
it structurally and reads its `id` key). -/
abbrev GwState := List (String × String)

/-- Python truthiness of the gateway fetch result: `False` is falsy, a dict
is truthy exactly when non-empty. -/
def gwTruthy : Option GwState → Bool
  | none => false
  | some [] => false
  | some (_ :: _) => true

/-- Source `get_applicationgateway`: one provider `get`; any `CloudError` is
caught (`found` stays `False` and the function returns `False`, modelled
`none`); a non-`CloudError` exception propagates. -/
def get_applicationgateway (o : GetOutcome GwState) : Except PyError (Option GwState) :=
  match o with
  | .ok d => .ok (some d)
  | .cloudError _ => .ok none
  | .otherError => .error .providerError

/-- Source `create_update_applicationgateway`: submits create-or-update,
unwraps a poller into the final state and returns `response.as_dict()`; a
`CloudError` becomes `self.fail`, any other exception propagates. -/
def create_update_applicationgateway (o : GetOutcome GwState) : Except PyError GwState :=
  match o with
  | .ok d => .ok d
  | .cloudError _ => .error (.failMsg "Error creating the Application Gateway instance")
  | .otherError => .error .providerError

/-- The decision block of the gateway `exec_module` (source lines 1385 to
1397): `self.to_do` as a function of the truthiness of `old_response` and of
the requested state. -/
def gwDecision (old : Option GwState) (st : RState) : Actions :=
  if gwTruthy old = false then
    if st = RState.absent then Actions.NoAction else Actions.Create
  else
    if st = RState.absent then Actions.Delete else Actions.Update

/-- Provider behavior for one gateway run. -/
structure GwProvider where
  getOutcome : GetOutcome GwState
  createOutcome : GetOutcome GwState
  deleteOutcome : Except CloudErrKind Unit
  pollOutcomes : List (GetOutcome GwState)

/-- Inputs of one gateway run: requested state, check mode, and the keyword
arguments fed to the translation loop. -/
structure GwInput where
  state : RState
  check_mode : Bool
  kwargs : GwKwargs
deriving DecidableEq, Repr

/-- Caller-visible result dictionary of a gateway run: the `changed` flag
and the `id` key when it was set. -/
structure GwResults where
  changed : Bool
  id : Option String
deriving DecidableEq, Repr

/-- How a gateway run ends. -/
inductive GwOutcome where
  | done : GwResults → GwOutcome
  | err : PyError → GwOutcome
  | divergent : GwOutcome
deriving DecidableEq, Repr

/-- One full gateway run: the executor calls issued, the sleeps performed by
the post-delete poll, the decision that was reached, and the outcome. -/
structure GwRun where
  calls : List ExecCall
  sleeps : List Nat
  decision : Actions
  outcome : GwOutcome
deriving DecidableEq, Repr

/-- Tail of the gateway `exec_module`: `if response: self.results["id"] =
response["id"]` followed by `return self.results`; a truthy response lacking
an `id` key would raise `KeyError`. -/
def gwFinish (td : Actions) (calls : List ExecCall) (sleeps : List Nat)
    (changed : Bool) (response : Option GwState) : GwRun :=
  match response with
  | none => ⟨calls, sleeps, td, .done ⟨changed, none⟩⟩
  | some r =>
    if r.isEmpty then ⟨calls, sleeps, td, .done ⟨changed, none⟩⟩
    else
      match List.lookup "id" r with
      | some v => ⟨calls, sleeps, td, .done ⟨changed, some v⟩⟩
      | none => ⟨calls, sleeps, td, .err (.keyError "id")⟩

/-- Source `exec_module` of `AzureRMApplicationGateways`: translate the
keyword arguments, fetch `old_response`, compute `self.to_do`, then run the
matching branch. Create/Update: under check mode set `changed` true and
return; otherwise call create-or-update, and set `changed` to true when no
prior state was observed, else to the structural inequality
`old_response.__ne__(response)`. Delete: set `changed` true; under check
mode return; otherwise call delete and poll `get_applicationgateway` every
20 time units until it is falsy. NoAction: `changed` false and the last
observed state becomes the response. -/
def gwExec (inp : GwInput) (prov : GwProvider) : GwRun :=
  match translateGw inp.kwargs with
  | .error e => ⟨[], [], Actions.NoAction, .err e⟩
  | .ok _ =>
    match get_applicationgateway prov.getOutcome with
    | .error e => ⟨[], [], Actions.NoAction, .err e⟩
    | .ok old =>
      let td := gwDecision old inp.state
      if td = Actions.Create ∨ td = Actions.Update then
        if inp.check_mode then ⟨[], [], td, .done ⟨true, none⟩⟩
        else
          match create_update_applicationgateway prov.createOutcome with
          | .error e => ⟨[ExecCall.createOrUpdateCall], [], td, .err e⟩
          | .ok resp =>
            let changed := if gwTruthy old = false then true else decide (old ≠ some resp)
            gwFinish td [ExecCall.createOrUpdateCall] [] changed (some resp)
      else if td = Actions.Delete then
        if inp.check_mode then ⟨[], [], td, .done ⟨true, none⟩⟩
        else
          match prov.deleteOutcome with
          | .error _ =>
            ⟨[ExecCall.deleteCall], [], td,
             .err (.failMsg "Error deleting the Application Gateway instance")⟩
          | .ok _ =>
            match deletePoll get_applicationgateway gwTruthy prov.pollOutcomes with
            | .finished sl => gwFinish td [ExecCall.deleteCall] sl true none
            | .failed e sl => ⟨[ExecCall.deleteCall], sl, td, .err e⟩
            | .hung sl => ⟨[ExecCall.deleteCall], sl, td, .divergent⟩
      else
        gwFinish td [] [] false old

/-! ### Concrete inputs used by the counterexample and witness theorems -/

/-- Gateway keyword arguments with nothing supplied. -/
def gwNone : GwKwargs :=
  ⟨none, none, none, none, none, none, none, none, none, none, none,
   none, none, none, none, none, none, none, none, none, none⟩

/-- An existing app service plan as fetched (tags `env=dev`, plus opaque
keys). -/
def c1d : PlanStateDict := ⟨some [("env", "dev")], [("name", "plan1")]⟩

/-- A run against `c1d` requesting `present` with the identical tags and no
sku, worker count, admin site name or linux flag supplied. -/
def c1in : PlanInput := ⟨none, none, none, false, RState.present, some [("env", "dev")], false⟩

/-- Provider for the `c1in` run; the create and delete outcomes are poisoned
(they would abort the run) to witness that neither executor call happens. -/
def c1prov : PlanProvider :=
  ⟨GetOutcome.ok c1d, GetOutcome.otherError, Except.error CloudErrKind.notFound, []⟩

/-- An existing plan whose tags will differ from the desired ones. -/
def c3d : PlanStateDict := ⟨some [("tier", "S1")], [("name", "plan1")]⟩

/-- A present-run against `c3d` whose desired tags differ, triggering the
update path. -/
def c3in : PlanInput := ⟨none, none, none, false, RState.present, some [("tier", "S2")], false⟩

/-- Provider for the `c3in` run: the create-or-update call resolves to a
state structurally identical to the previously fetched one. -/
def c3prov : PlanProvider :=
  ⟨GetOutcome.ok c3d, GetOutcome.ok c3d, Except.error CloudErrKind.notFound, []⟩

/-- An existing plan that is running on a Linux worker (its dict carries
`reserved: true`; the module never reads that key, which is the point). -/
def c6d : PlanStateDict := ⟨some [("env", "dev")], [("reserved", "true"), ("name", "plan1")]⟩

/-- State resolved by the create-or-update call of the `c6in` run. -/
def c6resp : PlanStateDict := ⟨some [("env", "prod")], [("reserved", "true"), ("name", "plan1")]⟩

/-- A present-run against the Linux plan `c6d` whose desired spec has
`is_linux` false (the Ansible default) — a requested change of the immutable
field in the linux-to-windows direction — plus a tag change making the
update fire. -/
def c6in : PlanInput := ⟨none, none, none, false, RState.present, some [("env", "prod")], false⟩

/-- Provider for the `c6in` run. -/
def c6prov : PlanProvider :=
  ⟨GetOutcome.ok c6d, GetOutcome.ok c6resp, Except.error CloudErrKind.notFound, []⟩

/-- Gateway keyword arguments carrying only a `sku` dict with user-facing
enum tokens. -/
def c7kw : GwKwargs :=
  { gwNone with sku := some [("name", PVal.s "standard_small"),
                             ("tier", PVal.s "standard"), ("capacity", PVal.i 2)] }

/-- The same keyword arguments as the caller sees them after the translation
loop ran: the nested sku dict now holds the provider-native tokens. -/
def c7kwMut : GwKwargs :=
  { gwNone with sku := some [("name", PVal.s "Standard_Small"),
                             ("tier", PVal.s "Standard"), ("capacity", PVal.i 2)] }

/-- Gateway keyword arguments with list-valued nested parameters whose
elements carry user-facing enum tokens (`protocol: http`,
`cookie_based_affinity: enabled`), exactly as the module documentation's
`choices` advertise them. -/
def c9kw : GwKwargs :=
  { gwNone with
      probes := some [PElem.pd [("protocol", PVal.s "http")]],
      backend_http_settings_collection :=
        some [PElem.pd [("protocol", PVal.s "https"),
                        ("cookie_based_affinity", PVal.s "enabled")]],
      http_listeners := some [PElem.pd [("protocol", PVal.s "http")]] }

/-! ### Helper lemmas -/

/-- A poll loop that finished slept exactly 20 time units between checks,
observed a falsy (absent) fetch at its final check, and observed only truthy
fetches before it. -/
theorem deletePoll_finished {σ : Type} (g : GetOutcome σ → Except PyError (Option σ))
    (tru : Option σ → Bool) :
    ∀ (tr : List (GetOutcome σ)) (sl : List Nat),
      deletePoll g tru tr = PollRes.finished sl →
      ∃ n, sl = List.replicate n 20 ∧
        (∃ o ob, tr.get? n = some o ∧ g o = Except.ok ob ∧ tru ob = false) ∧
        (∀ i, i < n → ∃ o ob, tr.get? i = some o ∧ g o = Except.ok ob ∧ tru ob = true) := by
  intro tr
  induction tr with
  | nil => intro sl h; simp [deletePoll] at h
  | cons o rest ih =>
    intro sl h
    unfold deletePoll at h
    cases hg : g o with
    | error e => rw [hg] at h; cases h
    | ok ob =>
      rw [hg] at h
      dsimp only at h
      by_cases ht : tru ob
      · rw [if_pos ht] at h
        cases hrec : deletePoll g tru rest with
        | finished sl2 =>
          rw [hrec] at h
          cases h
          obtain ⟨n, hsl, ⟨o2, ob2, hat, hgo2, htr2⟩, hpre⟩ := ih sl2 hrec
          refine ⟨n + 1, by simp [hsl, List.replicate_succ], ⟨o2, ob2, ?_, hgo2, htr2⟩, ?_⟩
          · simpa using hat
          · intro i hi
            cases i with
            | zero => exact ⟨o, ob, rfl, hg, ht⟩
            | succ j =>
              obtain ⟨o3, ob3, h1, h2, h3⟩ := hpre j (by omega)
              exact ⟨o3, ob3, by simpa using h1, h2, h3⟩
        | failed e sl2 => rw [hrec] at h; cases h
        | hung sl2 => rw [hrec] at h; cases h
      · rw [if_neg ht] at h
        cases h
        exact ⟨0, rfl, ⟨o, ob, rfl, hg, by simpa using ht⟩,
          fun i hi => absurd hi (Nat.not_lt_zero i)⟩

/-! ### Claim theorems -/

/-- Claim C2, counterexample: a permission-denied provider failure during the
fetch is *not* surfaced as a fetch error — both modules catch every
`CloudError` and map it to the Absent observed state (`.ok none`), exactly as
they do for not-found, so the reconciliation proceeds instead of aborting. -/
theorem C2_counterexample :
    get_applicationgateway (GetOutcome.cloudError CloudErrKind.permissionDenied) =
      Except.ok none ∧
    get_plan (GetOutcome.cloudError CloudErrKind.permissionDenied) = Except.ok none :=
  ⟨rfl, rfl⟩

/-- Claim C2, amended: the fetch maps a not-found `CloudError` to Absent, but
it does the same for *every* `CloudError` (permission denied, transient
network fault, malformed response alike); only a non-`CloudError` exception
propagates and aborts the reconciliation. -/
theorem C2_fetch_error_policy (k : CloudErrKind) :
    get_applicationgateway (GetOutcome.cloudError k) = Except.ok none ∧
    get_plan (GetOutcome.cloudError k) = Except.ok none ∧
    get_applicationgateway (GetOutcome.otherError) = Except.error PyError.providerError ∧
    get_plan (GetOutcome.otherError) = Except.error PyError.providerError :=
  ⟨rfl, rfl, rfl, rfl⟩

/-- Claim C8, counterexample: the app service plan sku normalization is not
injective on its documented tiers — the distinct documented tokens `Free`
and `F1` translate to the same provider token `F1`, so no reverse lookup can
return both originals and the round-trip identity fails. -/
theorem C8_counterexample :
    _normalize_sku (some "Free") = some "F1" ∧
    _normalize_sku (some "F1") = some "F1" ∧
    ("Free" : String) ≠ "F1" := by
  refine ⟨?_, ?_, ?_⟩ <;> decide

/-- Claim C8, amended: for the application gateway module's enum fields the
translation *is* injective on the documented choice sets — translating any
documented user token through its table and reverse-looking it up yields the
original token. The plan module's sku normalization is excluded: it is
deliberately many-to-one (`FREE` folds onto `F1`, `SHARED` onto `D1`, and
case is folded), as `C8_counterexample` shows. -/
theorem C8_roundtrip :
    ∀ t ∈ gwEnumTables, ∀ pq ∈ t, revLookup t (applyMap t pq.1) = some pq.1 := by
  decide

/-- Claim C8 witness: the round-trip at a concrete table and token. -/
theorem C8_roundtrip_witness :
    skuNameTable ∈ gwEnumTables ∧ ("standard_small", "Standard_Small") ∈ skuNameTable ∧
    revLookup skuNameTable (applyMap skuNameTable "standard_small") = some "standard_small" :=
  ⟨by decide, by decide,
   C8_roundtrip skuNameTable (by decide) ("standard_small", "Standard_Small") (by decide)⟩

/-- Claim C10: when the plan exists (the fetch returned a dict) and the run
requests `present` with a sku, worker count, admin site name or linux flag
supplied, the diff step reads `old_response.sku` /
`old_response.number_of_workers` / `old_response.admin_site_name` /
`old_response.reserved` — attribute access on the plain dict that `get_plan`
returned via `response.as_dict()` — so the run aborts with `AttributeError`
instead of reaching an Update or NoAction decision, and no executor call is
made. The error branch is reached for arbitrary fetched dict contents,
desired tags and check-mode flag, i.e. under normal preconditions. -/
theorem C10_diff_attribute_error (s : String) (w a : Option String) (il : Bool)
    (ts : Option Tags) (cm : Bool) (tg : Tags) (rest : List (String × String))
    (pco : GetOutcome PlanStateDict) (pdO : Except CloudErrKind Unit)
    (ppo : List (GetOutcome PlanStateDict)) :
    planExec ⟨some s, w, a, il, RState.present, ts, cm⟩
        ⟨GetOutcome.ok ⟨some tg, rest⟩, pco, pdO, ppo⟩ =
      ⟨[], [], PlanOutcome.err (PyError.attributeError "sku")⟩ ∧
    planExec ⟨none, some s, a, il, RState.present, ts, cm⟩
        ⟨GetOutcome.ok ⟨some tg, rest⟩, pco, pdO, ppo⟩ =
      ⟨[], [], PlanOutcome.err (PyError.attributeError "number_of_workers")⟩ ∧
    planExec ⟨none, none, some s, il, RState.present, ts, cm⟩
        ⟨GetOutcome.ok ⟨some tg, rest⟩, pco, pdO, ppo⟩ =
      ⟨[], [], PlanOutcome.err (PyError.attributeError "admin_site_name")⟩ ∧
    planExec ⟨none, none, none, true, RState.present, ts, cm⟩
        ⟨GetOutcome.ok ⟨some tg, rest⟩, pco, pdO, ppo⟩ =
      ⟨[], [], PlanOutcome.err (PyError.attributeError "reserved")⟩ :=
  ⟨rfl, rfl, rfl, rfl⟩

/-- Claim C9: the translation is *not* applied recursively to list-valued
nested parameters. On the failing input — probes, backend http settings and
http listeners each a list of one child dict carrying the documented
user-facing tokens (`protocol: http`/`https`, `cookie_based_affinity:
enabled`) — the `'protocol' in ev` test is Python *list membership*, which is
false for a list of dicts, so every element passes through verbatim: the
translated parameters still hold `http`, not the provider-native `Http` the
documentation's choices and the provider schema require, and the claim's
recursive rewrite never happens. -/
theorem C9_list_translation :
    translateGw c9kw = Except.ok (c9kw, c9kw) ∧
    c9kw.probes = some [PElem.pd [("protocol", PVal.s "http")]] := by
  refine ⟨?_, rfl⟩
  rfl

/-- Claim C1, counterexample: a plan run with the resource observed
(`c1prov.getOutcome` returns the non-empty dict `c1d`) and requestedState
present (`c1in.state`), where the desired tags equal the existing ones and
no managed field is supplied. The claim's decision table demands Update;
the code decides NoAction: no executor call is made (the poisoned create
and delete outcomes of `c1prov` would have aborted the run) and the run
returns `changed = false`. -/
theorem C1_counterexample :
    c1in.state = RState.present ∧ c1prov.getOutcome = GetOutcome.ok c1d ∧
    planExec c1in c1prov = ⟨[], [], PlanOutcome.done ⟨false, some c1d⟩⟩ := by
  refine ⟨rfl, rfl, ?_⟩
  rfl

/-- Claim C3, counterexample: an update run of the plan module in which the
state resolved by the create-or-update call (`c3d`) is structurally *equal*
to the prior observed state (`c3d` itself, as fetched), so the claim demands
`changed = false`; the code reports `changed = true`, because the plan
module derives `changed` from its pre-call diff (here: differing desired
tags) and never compares the resolved state with the prior one. -/
theorem C3_counterexample :
    c3prov.getOutcome = GetOutcome.ok c3d ∧
    create_or_update_plan c3prov.createOutcome = Except.ok c3d ∧
    planExec c3in c3prov =
      ⟨[ExecCall.createOrUpdateCall], [], PlanOutcome.done ⟨true, some c3d⟩⟩ := by
  refine ⟨rfl, rfl, ?_⟩
  rfl

/-- Claim C6, counterexample: an update request against the existing Linux
plan `c6d` (its dict records `reserved: true`) whose desired spec has
`is_linux = false` — an immutable-field change in the linux-to-windows
direction. The claim demands a precondition failure with no create-or-update
call; the code never detects this direction (`if self.is_linux and ...`
short-circuits on the falsy flag), issues the create-or-update call and
completes with `changed = true`. -/
theorem C6_counterexample :
    c6in.is_linux = false ∧ c6prov.getOutcome = GetOutcome.ok c6d ∧
    planExec c6in c6prov =
      ⟨[ExecCall.createOrUpdateCall], [], PlanOutcome.done ⟨true, some c6resp⟩⟩ := by
  refine ⟨rfl, rfl, ?_⟩
  rfl

/-- Claim C7, counterexample: translating the keyword arguments `c7kw`
(whose `sku` dict holds the user-facing tokens `standard_small`/`standard`)
succeeds but leaves the caller's parameter map *modified*: `ev = kwargs[key]`
aliases the caller's nested dict and the enum rewrite assigns through it, so
after translation the caller's map is `c7kwMut` (provider-native tokens),
which differs from the supplied `c7kw` — the translation is not free of side
effects on the caller's map. -/
theorem C7_counterexample :
    translateGw c7kw = Except.ok (c7kwMut, c7kwMut) ∧ c7kwMut ≠ c7kw := by
  refine ⟨rfl, ?_⟩
  decide

/-- When the result-assembly tail of the gateway run returns normally, the
reported `changed` flag is the one computed by the branch that reached it. -/
theorem gwFinish_outcome_changed (td : Actions) (calls : List ExecCall)
    (sleeps : List Nat) (changed : Bool) (response : Option GwState) (res : GwResults)
    (h : (gwFinish td calls sleeps changed response).outcome = GwOutcome.done res) :
    res.changed = changed := by
  unfold gwFinish at h
  rcases response with _ | r
  · cases h; rfl
  · dsimp only at h
    split at h
    · cases h; rfl
    · split at h
      · cases h; rfl
      · cases h

/-- Reduction of a plan run against an existing plan requesting `present`
with no sku, worker count, admin site name or linux flag supplied: the run
is the update-or-nothing branch selected by the tag-merge flag. -/
theorem planExec_present_existing (ts : Option Tags) (cm : Bool) (tg m : Tags)
    (rest : List (String × String)) (b : Bool)
    (pco : GetOutcome PlanStateDict) (pdO : Except CloudErrKind Unit)
    (ppo : List (GetOutcome PlanStateDict))
    (hu1 : (update_tags tg ts).1 = b) (hu2 : (update_tags tg ts).2 = m) :
    planExec ⟨none, none, none, false, RState.present, ts, cm⟩
        ⟨GetOutcome.ok ⟨some tg, rest⟩, pco, pdO, ppo⟩ =
      if b then
        (if cm then ⟨[], [], PlanOutcome.done ⟨true, some ⟨some m, rest⟩⟩⟩
         else
           match create_or_update_plan pco with
           | .error e => ⟨[ExecCall.createOrUpdateCall], [], PlanOutcome.err e⟩
           | .ok r => ⟨[ExecCall.createOrUpdateCall], [], PlanOutcome.done ⟨true, some r⟩⟩)
      else ⟨[], [], PlanOutcome.done ⟨false, some ⟨some m, rest⟩⟩⟩ := by
  subst hu1
  subst hu2
  rfl

/-- Under check mode the gateway run is decided entirely by the translation,
the fetch and the decision: no provider create/delete behavior enters. -/
theorem gwExec_check_mode (st : RState) (kw : GwKwargs) (prov : GwProvider) :
    gwExec ⟨st, true, kw⟩ prov =
      match translateGw kw with
      | .error e => ⟨[], [], Actions.NoAction, GwOutcome.err e⟩
      | .ok _ =>
        match get_applicationgateway prov.getOutcome with
        | .error e => ⟨[], [], Actions.NoAction, GwOutcome.err e⟩
        | .ok old =>
          if gwDecision old st = Actions.NoAction then
            ⟨[], [], Actions.NoAction, GwOutcome.done ⟨false, none⟩⟩
          else ⟨[], [], gwDecision old st, GwOutcome.done ⟨true, none⟩⟩ := by
  unfold gwExec
  cases translateGw kw with
  | error e => rfl
  | ok pr =>
    dsimp only
    cases get_applicationgateway prov.getOutcome with
    | error e => rfl
    | ok old =>
      dsimp only
      rcases old with _ | (_ | ⟨hd, tl⟩) <;> cases st <;> rfl

/-- Under check mode the plan run is decided entirely by the fetch and the
diff phase: no provider create/delete behavior enters. -/
theorem planExec_check_mode (sk w a : Option String) (il : Bool) (pst : RState)
    (ts : Option Tags) (prov : PlanProvider) :
    planExec ⟨sk, w, a, il, pst, ts, true⟩ prov =
      match get_plan prov.getOutcome with
      | .error e => ⟨[], [], PlanOutcome.err e⟩
      | .ok old =>
        match planDiff ⟨sk, w, a, il, pst, ts, true⟩ old with
        | .fail e => ⟨[], [], PlanOutcome.err e⟩
        | .proceed tbu old1 =>
          if tbu then
            ⟨[], [], PlanOutcome.done ⟨true, if planTruthy old1 then old1 else none⟩⟩
          else if pst = RState.absent ∧ planTruthy old1 = true then
            ⟨[], [], PlanOutcome.done ⟨true, if planTruthy old1 then old1 else none⟩⟩
          else ⟨[], [], PlanOutcome.done ⟨false, if planTruthy old1 then old1 else none⟩⟩ := by
  unfold planExec planFinish
  cases get_plan prov.getOutcome with
  | error e => rfl
  | ok old =>
    dsimp only
    cases planDiff ⟨sk, w, a, il, pst, ts, true⟩ old with
    | fail e => rfl
    | proceed tbu old1 =>
      dsimp only
      cases tbu
      · rfl
      · rfl

/-- Claim C5: under check mode (`dryRun=true`) both modules short-circuit
right after the decision: no executor operation is issued, no post-delete
poll runs, the whole run is independent of the provider's create/delete/poll
behavior, and (for the gateway module, whose run records its decision) the
returned `changed` flag is true exactly for a non-NoAction decision. -/
theorem C5_dry_run (st pst : RState) (kw : GwKwargs)
    (g : GetOutcome GwState) (co co2 : GetOutcome GwState)
    (dO dO2 : Except CloudErrKind Unit) (po po2 : List (GetOutcome GwState))
    (sk w a : Option String) (il : Bool) (ts : Option Tags)
    (pg : GetOutcome PlanStateDict) (pco pco2 : GetOutcome PlanStateDict)
    (pdO pdO2 : Except CloudErrKind Unit) (ppo ppo2 : List (GetOutcome PlanStateDict)) :
    (gwExec ⟨st, true, kw⟩ ⟨g, co, dO, po⟩).calls = [] ∧
    (gwExec ⟨st, true, kw⟩ ⟨g, co, dO, po⟩).sleeps = [] ∧
    gwExec ⟨st, true, kw⟩ ⟨g, co, dO, po⟩ = gwExec ⟨st, true, kw⟩ ⟨g, co2, dO2, po2⟩ ∧
    (∀ res, (gwExec ⟨st, true, kw⟩ ⟨g, co, dO, po⟩).outcome = GwOutcome.done res →
      res.changed = decide ((gwExec ⟨st, true, kw⟩ ⟨g, co, dO, po⟩).decision ≠ Actions.NoAction)) ∧
    (planExec ⟨sk, w, a, il, pst, ts, true⟩ ⟨pg, pco, pdO, ppo⟩).calls = [] ∧
    (planExec ⟨sk, w, a, il, pst, ts, true⟩ ⟨pg, pco, pdO, ppo⟩).sleeps = [] ∧
    planExec ⟨sk, w, a, il, pst, ts, true⟩ ⟨pg, pco, pdO, ppo⟩ =
      planExec ⟨sk, w, a, il, pst, ts, true⟩ ⟨pg, pco2, pdO2, ppo2⟩ := by
  have h1 := gwExec_check_mode st kw ⟨g, co, dO, po⟩
  have h2 := gwExec_check_mode st kw ⟨g, co2, dO2, po2⟩
  have h3 := planExec_check_mode sk w a il pst ts ⟨pg, pco, pdO, ppo⟩
  have h4 := planExec_check_mode sk w a il pst ts ⟨pg, pco2, pdO2, ppo2⟩
  dsimp only at h1 h2 h3 h4
  refine ⟨?_, ?_, ?_, ?_, ?_, ?_, ?_⟩
  · rw [h1]
    cases translateGw kw with
    | error e => rfl
    | ok pr =>
      dsimp only
      cases get_applicationgateway g with
      | error e => rfl
      | ok old => dsimp only; split <;> rfl
  · rw [h1]
    cases translateGw kw with
    | error e => rfl
    | ok pr =>
      dsimp only
      cases get_applicationgateway g with
      | error e => rfl
      | ok old => dsimp only; split <;> rfl
  · rw [h1, h2]
  · rw [h1]
    cases translateGw kw with
    | error e => intro res hres; cases hres
    | ok pr =>
      dsimp only
      cases get_applicationgateway g with
      | error e => intro res hres; cases hres
      | ok old =>
        dsimp only
        split
        · intro res hres
          cases hres
          rfl
        · rename_i h
          intro res hres
          cases hres
          simp [h]
  · rw [h3]
    cases get_plan pg with
    | error e => rfl
    | ok old =>
      dsimp only
      cases planDiff ⟨sk, w, a, il, pst, ts, true⟩ old with
      | fail e => rfl
      | proceed tbu old1 =>
        dsimp only
        cases tbu
        · split
          · rfl
          · split <;> rfl
        · rfl
  · rw [h3]
    cases get_plan pg with
    | error e => rfl
    | ok old =>
      dsimp only
      cases planDiff ⟨sk, w, a, il, pst, ts, true⟩ old with
      | fail e => rfl
      | proceed tbu old1 =>
        dsimp only
        cases tbu
        · split
          · rfl
          · split <;> rfl
        · rfl
  · rw [h3, h4]

/-- Claim C6, amended: only the windows-to-linux direction is detected at
all — whenever `is_linux = true` is requested against an existing plan under
`state = present`, the run aborts before any create-or-update call, but with
an `AttributeError` raised by the diff step's attribute access on the
fetched dict (`old_response.sku` / `.number_of_workers` / `.admin_site_name`
/ `.reserved`, whichever guard fires first), not with the module's
"cannot update is_linux" precondition failure; the linux-to-windows
direction (`is_linux` falsy) is never detected and does not prevent the
update (see the counterexample). -/
theorem C6_immutable_is_linux (sk w a : Option String) (ts : Option Tags)
    (cm : Bool) (tg : Tags) (rest : List (String × String))
    (pco : GetOutcome PlanStateDict) (pdO : Except CloudErrKind Unit)
    (ppo : List (GetOutcome PlanStateDict)) :
    (planExec ⟨sk, w, a, true, RState.present, ts, cm⟩
        ⟨GetOutcome.ok ⟨some tg, rest⟩, pco, pdO, ppo⟩).calls = [] ∧
    ∃ nm, (planExec ⟨sk, w, a, true, RState.present, ts, cm⟩
        ⟨GetOutcome.ok ⟨some tg, rest⟩, pco, pdO, ppo⟩).outcome =
      PlanOutcome.err (PyError.attributeError nm) := by
  rcases sk with _ | s
  · rcases w with _ | s
    · rcases a with _ | s
      · exact ⟨rfl, "reserved", rfl⟩
      · exact ⟨rfl, "admin_site_name", rfl⟩
    · exact ⟨rfl, "number_of_workers", rfl⟩
  · exact ⟨rfl, "sku", rfl⟩

/-- Claim C7, amended: the translation step is a deterministic function of
the parameter map and the static tables, and it leaves every list-valued and
scalar parameter of the caller's map unmodified — but it rewrites the three
dict-valued enum parameters (`sku`, `ssl_policy`,
`web_application_firewall_configuration`) *in place*, so after translation
the caller's map holds the same (translated) objects that were stored into
`self.parameters`, rather than being left unmodified. -/
theorem C7_translation_frame (k kMut : GwKwargs) (p : GwParams)
    (h : translateGw k = Except.ok (kMut, p)) :
    kMut.sku = p.sku ∧ kMut.ssl_policy = p.ssl_policy ∧
    kMut.web_application_firewall_configuration
      = p.web_application_firewall_configuration ∧
    kMut.id = k.id ∧ kMut.location = k.location ∧
    kMut.gateway_ip_configurations = k.gateway_ip_configurations ∧
    kMut.authentication_certificates = k.authentication_certificates ∧
    kMut.ssl_certificates = k.ssl_certificates ∧
    kMut.frontend_ip_configurations = k.frontend_ip_configurations ∧
    kMut.frontend_ports = k.frontend_ports ∧
    kMut.probes = k.probes ∧
    kMut.backend_address_pools = k.backend_address_pools ∧
    kMut.backend_http_settings_collection = k.backend_http_settings_collection ∧
    kMut.http_listeners = k.http_listeners ∧
    kMut.url_path_maps = k.url_path_maps ∧
    kMut.request_routing_rules = k.request_routing_rules ∧
    kMut.redirect_configurations = k.redirect_configurations ∧
    kMut.enable_http2 = k.enable_http2 ∧
    kMut.resource_guid = k.resource_guid ∧
    kMut.provisioning_state = k.provisioning_state ∧
    kMut.etag = k.etag := by
  unfold translateGw at h
  simp only [bind, Except.bind] at h
  cases h1 : optListEnum k.frontend_ip_configurations ["private_ip_allocation_method"] with
  | error e => rw [h1] at h; cases h
  | ok fic1 =>
  rw [h1] at h
  cases h2 : optListEnum k.probes ["protocol"] with
  | error e => rw [h2] at h; cases h
  | ok probes1 =>
  rw [h2] at h
  cases h3 : optListEnum k.backend_http_settings_collection
      ["protocol", "cookie_based_affinity"] with
  | error e => rw [h3] at h; cases h
  | ok bhsc1 =>
  rw [h3] at h
  cases h4 : optListEnum k.http_listeners ["protocol"] with
  | error e => rw [h4] at h; cases h
  | ok hl1 =>
  rw [h4] at h
  cases h5 : optListEnum k.request_routing_rules ["rule_type"] with
  | error e => rw [h5] at h; cases h
  | ok rrr1 =>
  rw [h5] at h
  cases h6 : optListEnum k.redirect_configurations ["redirect_type"] with
  | error e => rw [h6] at h; cases h
  | ok rc1 =>
  rw [h6] at h
  dsimp only at h
  injection h with h7
  injection h7 with h8 h9
  subst h8
  subst h9
  exact ⟨rfl, rfl, rfl, rfl, rfl, rfl, rfl, rfl, rfl, rfl, rfl, rfl, rfl, rfl,
         rfl, rfl, rfl, rfl, rfl, rfl, rfl⟩

/-- Claim C7 witness: the frame property at the concrete run of
`C7_counterexample`'s input, whose translation succeeds by computation. -/
theorem C7_translation_frame_witness :
    c7kwMut.sku = c7kwMut.sku ∧ c7kwMut.probes = c7kw.probes :=
  ⟨(C7_translation_frame c7kw c7kwMut c7kwMut rfl).1,
   (C7_translation_frame c7kw c7kwMut c7kwMut rfl).2.2.2.2.2.2.2.2.2.2.1⟩

/-- Claim C1, amended: the decision table holds as stated for the
application gateway module (not observed/present yields Create, not
observed/absent yields NoAction with no executor call and `changed = false`,
observed/absent yields Delete, observed/present yields Update), and for the
app service plan module in the first three rows; in the observed/present row
the plan module, in the runs that reach a decision at all — those with no
sku, worker count or admin site name supplied and `is_linux` false, since
supplying one makes the diff step abort with an error before any decision —
decides Update exactly when the tag merge flags a difference, and NoAction
(no executor call, `changed = false`) when the tags are unchanged. -/
theorem C1_decision_table :
    (∀ p ps, gwDecision (some (p :: ps)) RState.present = Actions.Update) ∧
    (∀ p ps, gwDecision (some (p :: ps)) RState.absent = Actions.Delete) ∧
    gwDecision none RState.present = Actions.Create ∧
    gwDecision none RState.absent = Actions.NoAction ∧
    (∀ kw pr cm k co dO po, translateGw kw = Except.ok pr →
      gwExec ⟨RState.absent, cm, kw⟩ ⟨GetOutcome.cloudError k, co, dO, po⟩ =
        ⟨[], [], Actions.NoAction, GwOutcome.done ⟨false, none⟩⟩) ∧
    (∀ s w a il ts k co dO po r, create_or_update_plan co = Except.ok r →
      planExec ⟨some s, w, a, il, RState.present, ts, false⟩
          ⟨GetOutcome.cloudError k, co, dO, po⟩ =
        ⟨[ExecCall.createOrUpdateCall], [], PlanOutcome.done ⟨true, some r⟩⟩) ∧
    (∀ sk w a il ts cm k co dO po,
      planExec ⟨sk, w, a, il, RState.absent, ts, cm⟩
          ⟨GetOutcome.cloudError k, co, dO, po⟩ =
        ⟨[], [], PlanOutcome.done ⟨false, none⟩⟩) ∧
    (∀ sk w a il ts tg rest co po sl,
      deletePoll get_plan planTruthy po = PollRes.finished sl →
      planExec ⟨sk, w, a, il, RState.absent, ts, false⟩
          ⟨GetOutcome.ok ⟨some tg, rest⟩, co, Except.ok (), po⟩ =
        ⟨[ExecCall.deleteCall], sl, PlanOutcome.done ⟨true, some ⟨some tg, rest⟩⟩⟩) ∧
    (∀ ts cm tg rest co dO po, (update_tags tg ts).1 = false →
      planExec ⟨none, none, none, false, RState.present, ts, cm⟩
          ⟨GetOutcome.ok ⟨some tg, rest⟩, co, dO, po⟩ =
        ⟨[], [], PlanOutcome.done ⟨false, some ⟨some (update_tags tg ts).2, rest⟩⟩⟩) ∧
    (∀ ts tg rest co dO po r, (update_tags tg ts).1 = true →
      create_or_update_plan co = Except.ok r →
      planExec ⟨none, none, none, false, RState.present, ts, false⟩
          ⟨GetOutcome.ok ⟨some tg, rest⟩, co, dO, po⟩ =
        ⟨[ExecCall.createOrUpdateCall], [], PlanOutcome.done ⟨true, some r⟩⟩) := by
  refine ⟨fun p ps => rfl, fun p ps => rfl, rfl, rfl, ?_, ?_, ?_, ?_, ?_, ?_⟩
  · intro kw pr cm k co dO po htr
    unfold gwExec
    rw [htr]
    rfl
  · intro s w a il ts k co dO po r hcr
    cases co with
    | ok d => injection hcr with hd; subst hd; rfl
    | cloudError k2 => cases hcr
    | otherError => cases hcr
  · intro sk w a il ts cm k co dO po
    rfl
  · intro sk w a il ts tg rest co po sl hsl
    have e : planExec ⟨sk, w, a, il, RState.absent, ts, false⟩
        ⟨GetOutcome.ok ⟨some tg, rest⟩, co, Except.ok (), po⟩ =
      match deletePoll get_plan planTruthy po with
      | .finished sl2 => ⟨[ExecCall.deleteCall], sl2,
          PlanOutcome.done ⟨true, some ⟨some tg, rest⟩⟩⟩
      | .failed e2 sl2 => ⟨[ExecCall.deleteCall], sl2, PlanOutcome.err e2⟩
      | .hung sl2 => ⟨[ExecCall.deleteCall], sl2, PlanOutcome.divergent⟩ := rfl
    rw [e, hsl]
  · intro ts cm tg rest co dO po hut
    rw [planExec_present_existing ts cm tg _ rest false co dO po hut rfl]
    rfl
  · intro ts tg rest co dO po r hut hcr
    rw [planExec_present_existing ts false tg _ rest true co dO po hut rfl]
    cases co with
    | ok d => injection hcr with hd; subst hd; rfl
    | cloudError k2 => cases hcr
    | otherError => cases hcr

/-- Claim C1 witness: the gateway NoAction row at a concrete input — delete
request for a gateway the provider reports not found: decision NoAction, no
executor call, `changed = false`. -/
theorem C1_decision_table_witness :
    gwExec ⟨RState.absent, false, gwNone⟩
        ⟨GetOutcome.cloudError CloudErrKind.notFound, GetOutcome.otherError,
         Except.error CloudErrKind.notFound, []⟩ =
      ⟨[], [], Actions.NoAction, GwOutcome.done ⟨false, none⟩⟩ :=
  C1_decision_table.2.2.2.2.1 gwNone (gwNone, gwNone) false CloudErrKind.notFound
    GetOutcome.otherError (Except.error CloudErrKind.notFound) [] rfl

/-- Claim C3, amended: the stated rule holds for the application gateway
module — after a create-or-update execution `changed` is true when no prior
state was observed, and, when one was, `changed` is exactly the structural
inequality between the prior observed dict and the resolved one. The app
service plan module does not follow the rule: it reports `changed = true`
exactly when its *pre-call* diff flagged the update, never comparing the
resolved state with the prior one (see the counterexample). -/
theorem C3_changed_flag :
    (∀ kw pr k r co2 dO po res, translateGw kw = Except.ok pr →
      create_update_applicationgateway co2 = Except.ok r →
      (gwExec ⟨RState.present, false, kw⟩
          ⟨GetOutcome.cloudError k, co2, dO, po⟩).outcome = GwOutcome.done res →
      res.changed = true) ∧
    (∀ kw pr hd tl r co2 dO po res, translateGw kw = Except.ok pr →
      create_update_applicationgateway co2 = Except.ok r →
      (gwExec ⟨RState.present, false, kw⟩
          ⟨GetOutcome.ok (hd :: tl), co2, dO, po⟩).outcome = GwOutcome.done res →
      (res.changed = true ↔ hd :: tl ≠ r)) ∧
    (∀ ts tg rest r pdO ppo pco res, (update_tags tg ts).1 = true →
      create_or_update_plan pco = Except.ok r →
      (planExec ⟨none, none, none, false, RState.present, ts, false⟩
          ⟨GetOutcome.ok ⟨some tg, rest⟩, pco, pdO, ppo⟩).outcome = PlanOutcome.done res →
      res.changed = true) := by
  refine ⟨?_, ?_, ?_⟩
  · intro kw pr k r co2 dO po res htr hcr hout
    cases co2 with
    | ok d =>
      injection hcr with hd
      subst hd
      have e : gwExec ⟨RState.present, false, kw⟩
          ⟨GetOutcome.cloudError k, GetOutcome.ok d, dO, po⟩ =
        gwFinish Actions.Create [ExecCall.createOrUpdateCall] [] true (some d) := by
        unfold gwExec
        rw [htr]
        rfl
      rw [e] at hout
      exact gwFinish_outcome_changed _ _ _ _ _ _ hout
    | cloudError k2 => cases hcr
    | otherError => cases hcr
  · intro kw pr hd tl r co2 dO po res htr hcr hout
    cases co2 with
    | ok d =>
      injection hcr with hd2
      subst hd2
      have e : gwExec ⟨RState.present, false, kw⟩
          ⟨GetOutcome.ok (hd :: tl), GetOutcome.ok d, dO, po⟩ =
        gwFinish Actions.Update [ExecCall.createOrUpdateCall] []
          (decide (some (hd :: tl) ≠ some d)) (some d) := by
        unfold gwExec
        rw [htr]
        rfl
      rw [e] at hout
      have hch := gwFinish_outcome_changed _ _ _ _ _ _ hout
      rw [hch]
      simp
    | cloudError k2 => cases hcr
    | otherError => cases hcr
  · intro ts tg rest r pdO ppo pco res hut hcr hout
    rw [planExec_present_existing ts false tg _ rest true pco pdO ppo hut rfl] at hout
    simp only [reduceIte] at hout
    rw [hcr] at hout
    dsimp only at hout
    cases hout
    rfl

/-- Claim C3 witness: the gateway update rule at a concrete run — prior
state `[("id", "1"), ("x", "a")]`, resolved state `[("id", "1"), ("x", "b")]`:
the run reports `changed = true` exactly because the two differ. -/
theorem C3_changed_flag_witness :
    (⟨true, some "1"⟩ : GwResults).changed = true ↔
      ([("id", "1"), ("x", "a")] : GwState) ≠ [("id", "1"), ("x", "b")] :=
  C3_changed_flag.2.1 gwNone (gwNone, gwNone) ("id", "1") [("x", "a")]
    [("id", "1"), ("x", "b")] (GetOutcome.ok [("id", "1"), ("x", "b")])
    (Except.error CloudErrKind.notFound) [] ⟨true, some "1"⟩ rfl rfl rfl

/-- Claim C4: in a non-check-mode delete execution (both modules; the plan
module's missing `delete_webapp` is modelled from the spec), a run that
returns at all has issued the delete call and then polled the fetch with a
fixed 20-time-unit sleep between checks, and it reports `changed = true`
only having observed Absent at the final fetch of the poll, every earlier
poll fetch having been truthy; a trace on which the fetch never reports
Absent makes the (unbounded) loop diverge instead of returning. -/
theorem C4_delete_poll
    (kw : GwKwargs) (pr : GwKwargs × GwParams) (p : String × String) (ps : GwState)
    (co : GetOutcome GwState) (po : List (GetOutcome GwState)) (res : GwResults)
    (sk w a : Option String) (il : Bool) (ts : Option Tags)
    (tg : Tags) (rest : List (String × String)) (pco : GetOutcome PlanStateDict)
    (ppo : List (GetOutcome PlanStateDict)) (pres : PlanResults)
    (htr : translateGw kw = Except.ok pr)
    (hgw : (gwExec ⟨RState.absent, false, kw⟩
        ⟨GetOutcome.ok (p :: ps), co, Except.ok (), po⟩).outcome = GwOutcome.done res)
    (hpl : (planExec ⟨sk, w, a, il, RState.absent, ts, false⟩
        ⟨GetOutcome.ok ⟨some tg, rest⟩, pco, Except.ok (), ppo⟩).outcome
      = PlanOutcome.done pres) :
    res.changed = true ∧ pres.changed = true ∧
    (gwExec ⟨RState.absent, false, kw⟩
        ⟨GetOutcome.ok (p :: ps), co, Except.ok (), po⟩).calls = [ExecCall.deleteCall] ∧
    (planExec ⟨sk, w, a, il, RState.absent, ts, false⟩
        ⟨GetOutcome.ok ⟨some tg, rest⟩, pco, Except.ok (), ppo⟩).calls
      = [ExecCall.deleteCall] ∧
    (∃ n, (gwExec ⟨RState.absent, false, kw⟩
        ⟨GetOutcome.ok (p :: ps), co, Except.ok (), po⟩).sleeps = List.replicate n 20 ∧
      (∃ o ob, po.get? n = some o ∧ get_applicationgateway o = Except.ok ob ∧
        gwTruthy ob = false) ∧
      (∀ i, i < n → ∃ o ob, po.get? i = some o ∧ get_applicationgateway o = Except.ok ob ∧
        gwTruthy ob = true)) ∧
    (∃ n, (planExec ⟨sk, w, a, il, RState.absent, ts, false⟩
        ⟨GetOutcome.ok ⟨some tg, rest⟩, pco, Except.ok (), ppo⟩).sleeps
      = List.replicate n 20 ∧
      (∃ o ob, ppo.get? n = some o ∧ get_plan o = Except.ok ob ∧ planTruthy ob = false) ∧
      (∀ i, i < n → ∃ o ob, ppo.get? i = some o ∧ get_plan o = Except.ok ob ∧
        planTruthy ob = true)) := by
  have egw : gwExec ⟨RState.absent, false, kw⟩
      ⟨GetOutcome.ok (p :: ps), co, Except.ok (), po⟩ =
    match deletePoll get_applicationgateway gwTruthy po with
    | .finished sl => ⟨[ExecCall.deleteCall], sl, Actions.Delete,
        GwOutcome.done ⟨true, none⟩⟩
    | .failed e sl => ⟨[ExecCall.deleteCall], sl, Actions.Delete, GwOutcome.err e⟩
    | .hung sl => ⟨[ExecCall.deleteCall], sl, Actions.Delete, GwOutcome.divergent⟩ := by
    unfold gwExec
    rw [htr]
    rfl
  have epl : planExec ⟨sk, w, a, il, RState.absent, ts, false⟩
      ⟨GetOutcome.ok ⟨some tg, rest⟩, pco, Except.ok (), ppo⟩ =
    match deletePoll get_plan planTruthy ppo with
    | .finished sl => ⟨[ExecCall.deleteCall], sl,
        PlanOutcome.done ⟨true, some ⟨some tg, rest⟩⟩⟩
    | .failed e sl => ⟨[ExecCall.deleteCall], sl, PlanOutcome.err e⟩
    | .hung sl => ⟨[ExecCall.deleteCall], sl, PlanOutcome.divergent⟩ := rfl
  cases hgwp : deletePoll get_applicationgateway gwTruthy po with
  | failed e sl => rw [hgwp] at egw; rw [egw] at hgw; cases hgw
  | hung sl => rw [hgwp] at egw; rw [egw] at hgw; cases hgw
  | finished sl =>
    rw [hgwp] at egw
    rw [egw] at hgw
    cases hplp : deletePoll get_plan planTruthy ppo with
    | failed e sl2 => rw [hplp] at epl; rw [epl] at hpl; cases hpl
    | hung sl2 => rw [hplp] at epl; rw [epl] at hpl; cases hpl
    | finished sl2 =>
      rw [hplp] at epl
      rw [epl] at hpl
      cases hgw
      cases hpl
      obtain ⟨n, hn, habs, hpre⟩ := deletePoll_finished get_applicationgateway gwTruthy po sl hgwp
      obtain ⟨n2, hn2, habs2, hpre2⟩ := deletePoll_finished get_plan planTruthy ppo sl2 hplp
      refine ⟨rfl, rfl, by rw [egw], by rw [epl], ⟨n, ?_, habs, hpre⟩,
              ⟨n2, ?_, habs2, hpre2⟩⟩
      · rw [egw]
        exact hn
      · rw [epl]
        exact hn2

/-- Claim C4 witness: a concrete delete run in which the first poll fetch
still sees the gateway and the second observes Absent — one 20-unit sleep,
`changed = true`, exactly one delete call. -/
theorem C4_delete_poll_witness :
    ∃ n, (gwExec ⟨RState.absent, false, gwNone⟩
        ⟨GetOutcome.ok [("id", "1")], GetOutcome.otherError, Except.ok (),
         [GetOutcome.ok [("id", "1")],
          GetOutcome.cloudError CloudErrKind.notFound]⟩).sleeps = List.replicate n 20 ∧
      (∃ o ob, [GetOutcome.ok [("id", "1")],
          GetOutcome.cloudError CloudErrKind.notFound].get? n = some o ∧
        get_applicationgateway o = Except.ok ob ∧ gwTruthy ob = false) ∧
      (∀ i, i < n → ∃ o ob, [GetOutcome.ok [("id", "1")],
          GetOutcome.cloudError CloudErrKind.notFound].get? i = some o ∧
        get_applicationgateway o = Except.ok ob ∧ gwTruthy ob = true) :=
  (C4_delete_poll gwNone (gwNone, gwNone) ("id", "1") [] GetOutcome.otherError
    [GetOutcome.ok [("id", "1")], GetOutcome.cloudError CloudErrKind.notFound]
    ⟨true, none⟩ none none none false none [] [("name", "p1")] GetOutcome.otherError
    [GetOutcome.cloudError CloudErrKind.notFound] ⟨true, some ⟨some [], [("name", "p1")]⟩⟩
    rfl rfl rfl).2.2.2.2.1

/-- Claim C2 witness: the amended fetch policy at concrete outcomes — a
transient-network `CloudError` is swallowed as Absent, a non-`CloudError`
failure aborts. -/
theorem C2_fetch_error_policy_witness :
    get_applicationgateway (GetOutcome.cloudError CloudErrKind.transientNetwork) =
      Except.ok none ∧
    get_plan (GetOutcome.otherError) = Except.error PyError.providerError :=
  ⟨(C2_fetch_error_policy CloudErrKind.transientNetwork).1,
   (C2_fetch_error_policy CloudErrKind.transientNetwork).2.2.2⟩

/-- Claim C5 witness: concrete check-mode runs of both modules issue no
executor call. -/
theorem C5_dry_run_witness :
    (gwExec ⟨RState.present, true, gwNone⟩
        ⟨GetOutcome.cloudError CloudErrKind.notFound, GetOutcome.otherError,
         Except.error CloudErrKind.notFound, []⟩).calls = [] ∧
    (planExec ⟨none, none, none, false, RState.present, none, true⟩
        ⟨GetOutcome.cloudError CloudErrKind.notFound, GetOutcome.otherError,
         Except.error CloudErrKind.notFound, []⟩).calls = [] :=
  ⟨(C5_dry_run RState.present RState.present gwNone
      (GetOutcome.cloudError CloudErrKind.notFound) GetOutcome.otherError
      GetOutcome.otherError (Except.error CloudErrKind.notFound)
      (Except.error CloudErrKind.notFound) [] [] none none none false none
      (GetOutcome.cloudError CloudErrKind.notFound) GetOutcome.otherError
      GetOutcome.otherError (Except.error CloudErrKind.notFound)
      (Except.error CloudErrKind.notFound) [] []).1,
   (C5_dry_run RState.present RState.present gwNone
      (GetOutcome.cloudError CloudErrKind.notFound) GetOutcome.otherError
      GetOutcome.otherError (Except.error CloudErrKind.notFound)
      (Except.error CloudErrKind.notFound) [] [] none none none false none
      (GetOutcome.cloudError CloudErrKind.notFound) GetOutcome.otherError
      GetOutcome.otherError (Except.error CloudErrKind.notFound)
      (Except.error CloudErrKind.notFound) [] []).2.2.2.2.1⟩
